import Mathlib

/-!
Shallow embedding of the py68k device framework core, translated from the
repository sources (`device.py`, `register.py`, `emulator.py`, `imageELF.py`,
`devices/CompactFlash.py`, `devices/simple.py`), together with theorems
settling the specification claims about it.

Machine integers are modelled as `Nat`; Python `bytearray` cells are `Nat`
values that must stay below 256 (an out-of-range store raises `ValueError`
in Python, modelled with `Option`).  Host wall-clock times (floats in the
source) are modelled as rationals.
-/

namespace Py68k

/-! ## Musashi constants (`musashi/m68k.py`) -/

/-- `IRQ_AUTOVECTOR = 0xffffffff` from `musashi/m68k.py`. -/
def IRQ_AUTOVECTOR : Nat := 0xffffffff

/-- `IRQ_SPURIOUS = 0xfffffffe` from `musashi/m68k.py`. -/
def IRQ_SPURIOUS : Nat := 0xfffffffe

/-- `MEM_READ = ord('R')` from `musashi/m68k.py`. -/
def MEM_READ : Nat := 82

/-- `MEM_WRITE = ord('W')` from `musashi/m68k.py`. -/
def MEM_WRITE : Nat := 87

/-- `MEM_SIZE_8` from `musashi/m68k.py`. -/
def MEM_SIZE_8 : Nat := 8

/-- `MEM_SIZE_16` from `musashi/m68k.py`. -/
def MEM_SIZE_16 : Nat := 16

/-- `MEM_SIZE_32` from `musashi/m68k.py`. -/
def MEM_SIZE_32 : Nat := 32

/-! ## Interrupt aggregation (`device.py`, class `RootDevice`)

A registered device is modelled by the two behaviours `RootDevice.cb_int`
and `RootDevice.check_interrupts` observe: its `get_interrupt()` result
(the currently asserted IPL) and its `get_vector(interrupt)` response.
External calls made by the framework (tracing, `set_irq`, `end_timeslice`)
are recorded as an effect list so that what the code does — and does not —
call is part of the model. -/

/-- External calls issued by the framework to the trace sink and the
Musashi CPU engine. -/
inductive Effect where
  | trace (info : String)
  | setIrq (level : Nat)
  | endTimeslice
  deriving DecidableEq, Repr

/-- A device as seen by `RootDevice`: name, `get_interrupt()` result
(asserted IPL, 0 when not interrupting) and `get_vector` behaviour. -/
structure Dev where
  name : String
  ipl : Nat
  vector : Nat → Nat

/-- `RootDevice.cb_int` (`device.py` lines 230-242): iterate all registered
devices in registration order, calling `get_vector(interrupt)` on each; the
first non-spurious response is returned, else `M68K_IRQ_SPURIOUS`.  The
second component records the names of the devices on which `get_vector`
was invoked, in call order. -/
def cb_int (devs : List Dev) (interrupt : Nat) : Nat × List String :=
  match devs with
  | [] => (IRQ_SPURIOUS, [])
  | d :: rest =>
      let v := d.vector interrupt
      if v ≠ IRQ_SPURIOUS then
        (v, [d.name])
      else
        let r := cb_int rest interrupt
        (r.1, d.name :: r.2)

/-- `RootDevice.check_interrupts` (`device.py` lines 313-326): fold the
devices' `get_interrupt()` results keeping the running maximum. -/
def aggregateIpl (devs : List Dev) : Nat :=
  devs.foldl (fun ipl d => if d.ipl > ipl then d.ipl else ipl) 0

/-- `RootDevice.check_interrupts` (`device.py` lines 313-326), effect view:
computes the combined IPL, and when it is non-zero and above the CPU's
current priority mask (bits 8-10 of `sr`) emits a debug trace (gated, as in
`Device.trace`, on the root device's debug flag); finally always drives
`set_irq(ipl)`.  The source contains no `end_timeslice` /
`modify_timeslice` call. -/
def check_interrupts (debug : Bool) (devs : List Dev) (sr : Nat) : List Effect :=
  let ipl := aggregateIpl devs
  let cpl := (sr >>> 8) % 8
  (if ipl > 0 ∧ ipl > cpl ∧ debug then
    [Effect.trace s!"asserts ipl {ipl}"]
  else []) ++ [Effect.setIrq ipl]

/-! ## Device-space bus dispatch (`device.py`, `RootDevice.cb_access`)

`Device._register_to_device` maps absolute register addresses to device
objects; a device's read behaviour is modelled as a pure function of
`(width, offset)`.  The `DEV_READ` / `DEV_WRITE` operation codes are
imported by `device.py` from the native binding; only their distinctness
matters here, so they are modelled by the binding's read/write codes. -/

/-- Device-space read operation code. -/
def DEV_READ : Nat := MEM_READ

/-- Device-space write operation code. -/
def DEV_WRITE : Nat := MEM_WRITE

/-- A device as seen by the bus dispatcher: name, base address and pure
read response. -/
structure BusDev where
  name : String
  base : Nat
  readf : Nat → Nat → Nat
  deriving Inhabited

/-- `Device._register_to_device` lookup: Python `dict` access, modelled as
first match in an association list. -/
def regLookup (regmap : List (Nat × BusDev)) (address : Nat) : Option BusDev :=
  (regmap.find? (fun e => e.1 == address)).map (·.2)

/-- `RootDevice.cb_access` (`device.py` lines 244-287): resolve the
address; on a miss emit the `lookup` failure trace (gated, as all
`Device.trace` calls are, on the root device's debug flag) and return 0 to
the CPU without running `check_interrupts`.  On a hit, dispatch to the
device (reads return the handler value; writes return the incoming
`value`), emit the optional I/O trace, then run `check_interrupts`.
This generation of the dispatcher has no bus-error path at all. -/
def cb_access (debug traceIO : Bool) (regmap : List (Nat × BusDev)) (devs : List Dev)
    (sr : Nat) (operation handle offset width value : Nat) : Nat × List Effect :=
  let address := handle + offset
  match regLookup regmap address with
  | none =>
      (0, if debug then
            [Effect.trace s!"root: lookup failed to find device to handle access @{address}"]
          else [])
  | some dev =>
      let off := address - dev.base
      if operation = DEV_READ then
        let v := dev.readf width off
        (v, (if traceIO then [Effect.trace s!"{dev.name} read {off} -> {v}"] else [])
              ++ check_interrupts debug devs sr)
      else
        (value, (if traceIO then [Effect.trace s!"{dev.name} write {off} <- {value}"] else [])
              ++ check_interrupts debug devs sr)

/-! ## Emulator loop and termination (`emulator.py`)

`Emulator.run` executes quanta while `not self._dead`; the loop body
(lines 301-311) adds the cycles run, then evaluates `if mem_is_end():`,
then `if self._elapsed_cycles > self._cycle_limit:`.  But `mem_is_end` is
bound nowhere visible to `emulator.py`: it is not in the module's import
list (lines 57-77), not defined in the file, and not present in
`musashi/m68k.py` either.  The statement on line 307 therefore raises
`NameError` on every iteration, before the cycle-limit comparison on
line 310 can run, and neither `fatal` call of the loop body is ever
reached.  `args.cycle_limit ≤ 0` yields `float('inf')`, modelled as
`none`. -/

/-- Loop-relevant emulator state. -/
structure EmuState where
  dead : Bool
  postmortem : Option String
  elapsedCycles : Nat
  cycleLimit : Option Nat
  deriving DecidableEq, Repr

/-- `Emulator.fatal` (`emulator.py` lines 572-578): set the dead flag,
record the reason, end the current timeslice. -/
def Emulator.fatal (s : EmuState) (reason : String) : EmuState × List Effect :=
  ({s with dead := true, postmortem := some reason}, [Effect.endTimeslice])

/-- The outcome of one attempted loop iteration: the emulator state after
the statements that did execute, the uncaught Python exception (if any)
that aborted the iteration, and the external calls made. -/
structure StepOutcome where
  state : EmuState
  raised : Option String
  effects : List Effect
  deriving DecidableEq, Repr

/-- One iteration of the `Emulator.run` while-loop body (`emulator.py`
lines 301-311) after `execute` returned `cyclesRun`:
`self._elapsed_cycles += execute(...)` completes, but the next statement,
`if mem_is_end():` (line 307), evaluates a name that is neither imported
nor defined anywhere visible to `emulator.py` and raises `NameError`,
aborting the iteration before the cycle-limit comparison on line 310; the
`fatal('cycle limit exceeded')` call is unreachable. -/
def runStep (s : EmuState) (cyclesRun : Nat) : StepOutcome :=
  let s1 := {s with elapsedCycles := s.elapsedCycles + cyclesRun}
  { state := s1,
    raised := some "NameError: name 'mem_is_end' is not defined",
    effects := [] }

/-! ## SIGINT debounce (`Emulator._keyboard_interrupt`, `emulator.py`
lines 550-562)

Host wall-clock instants (Python floats) are modelled as rationals.  The
final `self._root_device.console_input(3)` forwards the break byte to the
console; `console_input` itself belongs to the device-framework base class
that is not present under `src/`.
Modelled from the spec: `console_input` delivers the byte to the registered
console input handler (§4.1, §5 "fewer are ignored or forwarded as a
console break"), modelled as appending byte 3 to a console-input sink. -/

/-- State observed and mutated by the SIGINT handler. -/
structure KIState where
  firstInterruptTime : ℚ
  interruptCount : Nat
  dead : Bool
  postmortem : Option String
  consoleInput : List Nat
  deriving DecidableEq, Repr

/-- `Emulator._keyboard_interrupt`: debounce three presses within one
second of the anchored window start, then `fatal('Exit due to user
interrupt.')`; every press is forwarded to the console as byte 3. -/
def keyboard_interrupt (s : KIState) (now : ℚ) : KIState :=
  let interval := now - s.firstInterruptTime
  let s1 :=
    if interval ≥ 1 then
      {s with firstInterruptTime := now, interruptCount := 1}
    else
      let c := s.interruptCount + 1
      if c ≥ 3 then
        {s with interruptCount := c, dead := true,
                postmortem := some "Exit due to user interrupt."}
      else
        {s with interruptCount := c}
  {s1 with consoleInput := s1.consoleInput ++ [3]}

/-- Fold a sequence of SIGINT delivery instants through the handler. -/
def pressAll (s : KIState) (ts : List ℚ) : KIState :=
  ts.foldl keyboard_interrupt s

/-! ## Register table (`register.py`, class `Register`)

The table is the Python class dict `Register.__registers`, keyed by
`(address, size, access)`.  `Register.__init__` validates alignment, size,
access and uniqueness before the final dict assignment, so a raised
`RuntimeError` leaves the dict unchanged. -/

/-- A register descriptor as stored in the table. -/
structure RegDesc where
  devName : String
  name : String
  address : Nat
  size : Nat
  access : Nat
  deriving DecidableEq, Repr

/-- `(address, size, access)` — `Register.key`. -/
abbrev RegKey := Nat × Nat × Nat

/-- `Register.lookup`: dict access by key, first match in the
association list. -/
def Register.lookup (table : List (RegKey × RegDesc)) (address size access : Nat) :
    Option RegDesc :=
  (table.find? (fun e => e.1 == (address, size, access))).map (·.2)

/-- `Register.__init__` (`register.py` lines 15-48): compute the absolute
address (`dev.address + offset`), validate alignment for 16- and 32-bit
widths (`address & 1`, `address & 3`), reject unrecognized sizes and
access codes, reject a key already present, then store the descriptor. -/
def Register.init (table : List (RegKey × RegDesc)) (devName : String) (devAddress : Nat)
    (name : String) (offset size access : Nat) :
    Except String (List (RegKey × RegDesc)) :=
  let address := devAddress + offset
  if size = MEM_SIZE_16 ∧ address % 2 ≠ 0 then
    .error s!"{devName}.{name} not 2-aligned"
  else if size = MEM_SIZE_32 ∧ address % 4 ≠ 0 then
    .error s!"{devName}.{name} not 4-aligned"
  else if ¬(size = MEM_SIZE_8 ∨ size = MEM_SIZE_16 ∨ size = MEM_SIZE_32) then
    .error s!"{devName}.{name} has unrecogized size"
  else if ¬(access = MEM_READ ∨ access = MEM_WRITE) then
    .error s!"{devName}.{name} has unrecognized access"
  else if (Register.lookup table address size access).isSome then
    .error s!"register {devName}.{name} conflicts"
  else
    .ok (table ++ [((address, size, access), ⟨devName, name, address, size, access⟩)])

/-! ## ELF loader (`imageELF.py`, `ELFImage.relocate`)

Sections carry their load address, `SHF_ALLOC` flag and data bytes; a
relocation section carries the `SHF_ALLOC` flag of the section its
`sh_info` names, and its RELA entries (a REL entry makes the source raise,
so only RELA entries are modelled).  A Python `bytearray` cell assignment
demands a value in `range(256)` and an in-bounds index, else it raises;
this partiality is the `Option`.  Note the source references
`RelocationSection` and `R_68K_32` without importing or defining them. -/

/-- The `R_68K_32` relocation type (1 in the m68k ELF ABI; the name is
used but never bound in `imageELF.py`). -/
def R_68K_32 : Nat := 1

/-- One RELA relocation entry. -/
structure RelaEntry where
  r_offset : Nat
  r_info_type : Nat
  r_addend : Nat
  deriving DecidableEq, Repr

/-- A relocation section: the `SHF_ALLOC` flag of its target section and
its entries. -/
structure RelocSection where
  targetAlloc : Bool
  relocs : List RelaEntry
  deriving DecidableEq, Repr

/-- An ELF section as consumed by `_get_loadable_sections`. -/
structure ELFSection where
  sh_addr : Nat
  shf_alloc : Bool
  data : List Nat
  deriving DecidableEq, Repr

/-- The parsed image parts `relocate` consumes. -/
structure ELFImage where
  sections : List ELFSection
  relocSections : List RelocSection
  e_entry : Nat
  deriving DecidableEq, Repr

/-- `ELFImage._get_loadable_sections`: the `sh_addr → bytearray(data)`
dict in section order (section load addresses are distinct in well-formed
images, so the association list mirrors the dict). -/
def getLoadableSections (img : ELFImage) : List (Nat × List Nat) :=
  (img.sections.filter (·.shf_alloc)).map (fun s => (s.sh_addr, s.data))

/-- `bytearray` cell store: in-bounds index and value below 256, else a
raised error (`none`). -/
def baSet (a : List Nat) (i v : Nat) : Option (List Nat) :=
  if i < a.length ∧ v < 256 then some (a.set i v) else none

/-- The inner `for sec_base, sec_data in loadable_sections.items()` loop of
`relocate` (`imageELF.py` lines 88-95): find the first section with
`sec_base ≤ reloc_address` and `reloc_address - sec_base < len(sec_data)`,
store the four bytes `rel_value >> 24, >> 16, >> 8, >> 0` (unmasked, as in
the source) and stop; when no section contains the address the loop
finishes without writing. -/
def writeReloc (secs : List (Nat × List Nat)) (relocAddress relValue : Nat) :
    Option (List (Nat × List Nat)) :=
  match secs with
  | [] => some []
  | (base, dat) :: rest =>
      if base ≤ relocAddress ∧ relocAddress - base < dat.length then do
        let o := relocAddress - base
        let d0 ← baSet dat o (relValue >>> 24)
        let d1 ← baSet d0 (o + 1) (relValue >>> 16)
        let d2 ← baSet d1 (o + 2) (relValue >>> 8)
        let d3 ← baSet d2 (o + 3) (relValue >>> 0)
        return (base, d3) :: rest
      else do
        let rest' ← writeReloc rest relocAddress relValue
        return (base, dat) :: rest'

/-- The `for reloc in section.iter_relocations()` loop: entries whose type
is not `R_68K_32` are skipped; for the rest,
`rel_value = offset + r_addend` is written at `r_offset`. -/
def applyRelocs (secs : List (Nat × List Nat)) (relocs : List RelaEntry) (offset : Nat) :
    Option (List (Nat × List Nat)) :=
  relocs.foldlM
    (fun secs reloc =>
      if reloc.r_info_type ≠ R_68K_32 then pure secs
      else writeReloc secs reloc.r_offset (offset + reloc.r_addend))
    secs

/-- `ELFImage.relocate` (`imageELF.py` lines 62-101): apply every
relocation section whose target section is loadable to the loadable
sections, then shift every section base by `offset` and return it with the
relocated entry point. -/
def relocate (img : ELFImage) (offset : Nat) :
    Option (Nat × List (Nat × List Nat)) := do
  let loadable := getLoadableSections img
  let secs ← img.relocSections.foldlM
    (fun secs rs =>
      if rs.targetAlloc then applyRelocs secs rs.relocs offset else pure secs)
    loadable
  return (img.e_entry + offset, secs.map (fun s => (s.1 + offset, s.2)))

/-- Big-endian 32-bit read from a relocated section list: the word at
`addr` in the first section containing it. -/
def readWord32BE (secs : List (Nat × List Nat)) (addr : Nat) : Option Nat :=
  match secs with
  | [] => none
  | (base, dat) :: rest =>
      if base ≤ addr ∧ addr - base < dat.length then
        let o := addr - base
        some (dat.getD o 0 * 0x1000000 + dat.getD (o + 1) 0 * 0x10000
              + dat.getD (o + 2) 0 * 0x100 + dat.getD (o + 3) 0)
      else readWord32BE rest addr

/-! ## CompactFlash IDENTIFY (`devices/CompactFlash.py`)

`CompactFlash.__init__` builds `_identify_data` with `struct.pack` whose
format string starts with `'>'` (big-endian packing — the adjacent source
comment says "little endian").  `_do_identify` arms a 512-byte transfer;
`_io_read` with a 16-bit width then serves
`(data[index + 1] << 8) + data[index]` — a little-endian register read. -/

/-- `struct` `'>H'`: one 16-bit value packed big-endian. -/
def packH (v : Nat) : List Nat := [v / 256 % 256, v % 256]

/-- `struct` pad bytes (`'x'`): zeroes. -/
def padB (n : Nat) : List Nat := List.replicate n 0

/-- `struct` `'ns'`: the string's bytes, zero-padded to `n`. -/
def packS (n : Nat) (s : String) : List Nat :=
  (s.data.map Char.toNat).take n ++ List.replicate (n - s.length) 0

/-- `CompactFlash._identify_data` (`devices/CompactFlash.py` lines
82-137) for a backing file of `driveSize` sectors: fields in format-string
order, words 60/61 holding `drive_size & 0xffff` and `drive_size >> 16`. -/
def identifyData (driveSize : Nat) : List Nat :=
  packH 0 ++ packH 16383 ++ padB 2 ++ packH 16 ++ padB 4 ++ packH 63 ++ padB 6
    ++ packS 20 "00000000" ++ padB 4 ++ packH 0 ++ packS 8 "00000000"
    ++ packS 40 "py68k emulated CF   " ++ packH 1 ++ padB 2 ++ packH 0 ++ padB 2
    ++ packH 0 ++ padB 2 ++ packH 0 ++ padB 10 ++ packH 0
    ++ packH (driveSize % 0x10000) ++ packH (driveSize >>> 16) ++ padB 2 ++ packH 0
    ++ padB 32 ++ packH 0 ++ packH 0 ++ packH 0 ++ packH 0 ++ padB 88 ++ packH 0
    ++ padB 254

/-- Identify-transfer state: the data block and `_bytes_remaining`. -/
structure CFIdentState where
  identData : List Nat
  bytesRemaining : Nat
  deriving DecidableEq, Repr

/-- `CompactFlash._do_identify` (lines 273-277): arm a 512-byte identify
transfer. -/
def do_identify (driveSize : Nat) : CFIdentState :=
  ⟨identifyData driveSize, 512⟩

/-- `CompactFlash._io_read` with a 16-bit width in identify mode (lines
279-314): refuse a read beyond the armed transfer (return 0), else serve
`(data[index + 1] << 8) + data[index]` at `index = 512 - bytes_remaining`
and consume two bytes. -/
def io_read16 (s : CFIdentState) : Nat × CFIdentState :=
  if s.bytesRemaining < 2 then (0, s)
  else
    let index := 512 - s.bytesRemaining
    (s.identData.getD (index + 1) 0 * 256 + s.identData.getD index 0,
     {s with bytesRemaining := s.bytesRemaining - 2})

/-- Consecutive 16-bit data-register reads: the words a program observes,
in order. -/
def readWords : CFIdentState → Nat → List Nat
  | _, 0 => []
  | s, k + 1 =>
      let r := io_read16 s
      r.1 :: readWords r.2 k

/-! ## Simple UART (`devices/simple.py`, class `UART`)

The register state the data-register read can touch: the receive FIFO,
the control and vector registers, and the asserted IPL.  `interrupt` is
the level assigned at construction (the target of `assert_ipl`). -/

/-- `UART.CR_RX_INTEN`. -/
def CR_RX_INTEN : Nat := 0x01

/-- `UART.CR_TX_INTEN`. -/
def CR_TX_INTEN : Nat := 0x02

/-- UART device state. -/
structure UARTState where
  rxfifo : List Nat
  cr : Nat
  vr : Nat
  ipl : Nat
  interrupt : Nat
  deriving DecidableEq, Repr

/-- `UART._read_dr` (`devices/simple.py` lines 54-58): pop and return the
FIFO head when available, else return 0.  The `self._update_ipl()` call in
the source stands after the `return` statement and is therefore never
executed. -/
def read_dr (s : UARTState) : Nat × UARTState :=
  match s.rxfifo with
  | b :: rest => (b, {s with rxfifo := rest})
  | [] => (0, s)

/-- `UART._update_ipl` (`devices/simple.py` lines 82-88).
Modelled from the spec: `assert_ipl` / `deassert_ipl` live in the
device-framework base class absent from `src/`; per §4.1 they latch the
device's assigned interrupt level / clear it. -/
def update_ipl (s : UARTState) : UARTState :=
  if s.cr &&& CR_TX_INTEN ≠ 0 then {s with ipl := s.interrupt}
  else if s.cr &&& CR_RX_INTEN ≠ 0 ∧ s.rxfifo.length > 0 then {s with ipl := s.interrupt}
  else {s with ipl := 0}

end Py68k

namespace Py68k

/-! ### Helper lemmas for the IPL fold -/

theorem foldIpl_eq_foldl_max (devs : List Dev) (a : Nat) :
    devs.foldl (fun ipl d => if d.ipl > ipl then d.ipl else ipl) a
      = (devs.map Dev.ipl).foldl max a := by
  induction devs generalizing a with
  | nil => rfl
  | cons d rest ih =>
      simp only [List.foldl_cons, List.map_cons, ih]
      congr 1
      split <;> omega

theorem le_foldl_max (l : List Nat) (a : Nat) : a ≤ l.foldl max a := by
  induction l generalizing a with
  | nil => exact Nat.le_refl a
  | cons x rest ih => exact Nat.le_trans (Nat.le_max_left a x) (ih (max a x))

theorem mem_le_foldl_max (l : List Nat) (a : Nat) :
    ∀ x ∈ l, x ≤ l.foldl max a := by
  induction l generalizing a with
  | nil => intro x hx; cases hx
  | cons y rest ih =>
      intro x hx
      rcases List.mem_cons.mp hx with rfl | hx
      · exact Nat.le_trans (Nat.le_max_right a x) (le_foldl_max rest (max a x))
      · exact ih (max a y) x hx

theorem foldl_max_mem (l : List Nat) (a : Nat) :
    l.foldl max a = a ∨ l.foldl max a ∈ l := by
  induction l generalizing a with
  | nil => exact Or.inl rfl
  | cons x rest ih =>
      simp only [List.foldl_cons]
      rcases ih (max a x) with h | h
      · rcases Nat.le_total a x with hax | hxa
        · refine Or.inr ?_
          rw [h, Nat.max_eq_right hax]
          exact List.mem_cons_self x rest
        · exact Or.inl (h.trans (Nat.max_eq_left hxa))
      · exact Or.inr (List.mem_cons_of_mem x h)

end Py68k

namespace Py68k

/-! ### Claim C2: interrupt-acknowledge device consultation -/

/-- C2 counterexample: during interrupt acknowledge for level 2,
`cb_int` invokes `get_vector` on a device whose asserted IPL is 0 — the
source loop (`device.py` lines 232-237) consults every registered device
and never compares the device's asserted IPL with the acknowledged level. -/
theorem cb_int_consults_device_with_other_ipl :
    (Dev.mk "uart" 0 (fun _ => IRQ_SPURIOUS)).name
        ∈ (cb_int [Dev.mk "uart" 0 (fun _ => IRQ_SPURIOUS),
                   Dev.mk "timer" 2 (fun _ => 0x40)] 2).2
    ∧ (Dev.mk "uart" 0 (fun _ => IRQ_SPURIOUS)).ipl ≠ 2 := by
  constructor
  · simp [cb_int, IRQ_SPURIOUS]
  · decide

/-- C2 (amended): during interrupt acknowledge for level `n`, devices are
consulted in registration order, and `get_vector(n)` is called on every
device up to and including the first one returning a non-spurious vector,
regardless of each device's asserted IPL; the vector supplied to the CPU is
that first non-spurious value, and the spurious sentinel is returned when
every device returns spurious. -/
theorem cb_int_registration_order (devs : List Dev) (n : Nat) :
    cb_int devs n =
      ((((devs.dropWhile (fun d => d.vector n == IRQ_SPURIOUS)).head?).map
          (fun d => d.vector n)).getD IRQ_SPURIOUS,
       (devs.takeWhile (fun d => d.vector n == IRQ_SPURIOUS)).map Dev.name
         ++ (((devs.dropWhile (fun d => d.vector n == IRQ_SPURIOUS)).head?).map
              Dev.name).toList) := by
  induction devs with
  | nil => rfl
  | cons d rest ih =>
      by_cases h : d.vector n = IRQ_SPURIOUS
      · simp [cb_int, h, ih, List.dropWhile_cons, List.takeWhile_cons]
      · simp [cb_int, h, List.dropWhile_cons, List.takeWhile_cons]

/-! ### Claim C3: aggregated IRQ level equals maximum asserted IPL -/

/-- C3: after an interrupt-aggregation step (`check_interrupts`, run at the
end of each device register access and each root-device tick), the level
driven to the CPU via `set_irq` is the aggregated IPL, which is an upper
bound of all devices' asserted IPLs and is either 0 (no device
interrupting) or the asserted IPL of some device — i.e. it is the maximum,
0 when none interrupt. -/
theorem check_interrupts_drives_max_ipl (debug : Bool) (devs : List Dev) (sr : Nat) :
    (∃ pre, check_interrupts debug devs sr = pre ++ [Effect.setIrq (aggregateIpl devs)])
    ∧ (∀ d ∈ devs, d.ipl ≤ aggregateIpl devs)
    ∧ (aggregateIpl devs = 0 ∨ ∃ d ∈ devs, d.ipl = aggregateIpl devs) := by
  refine ⟨⟨_, rfl⟩, ?_, ?_⟩
  · intro d hd
    rw [aggregateIpl, foldIpl_eq_foldl_max]
    exact mem_le_foldl_max _ 0 d.ipl (List.mem_map_of_mem Dev.ipl hd)
  · rw [aggregateIpl, foldIpl_eq_foldl_max]
    rcases foldl_max_mem (devs.map Dev.ipl) 0 with h | h
    · exact Or.inl h
    · rcases List.mem_map.mp h with ⟨d, hd, hip⟩
      exact Or.inr ⟨d, hd, hip⟩

/-- Witness for `check_interrupts_drives_max_ipl` at a concrete device
list. -/
theorem check_interrupts_drives_max_ipl_witness :
    (Dev.mk "u" 2 (fun _ => IRQ_SPURIOUS)).ipl
      ≤ aggregateIpl [Dev.mk "u" 2 (fun _ => IRQ_SPURIOUS)] :=
  (check_interrupts_drives_max_ipl false [Dev.mk "u" 2 (fun _ => IRQ_SPURIOUS)] 0).2.1
    _ (List.mem_singleton.mpr rfl)

/-! ### Claim C4: no early quantum end on unmasked interrupt -/

/-- C4 counterexample: with a single device asserting IPL 2 and the CPU
priority mask at 0 (SR = 0x2000), the aggregation step emits no request to
end the current quantum — `check_interrupts` (`device.py` lines 313-326)
only emits a debug trace in the `ipl > cpl` branch and then drives
`set_irq`; it never calls `end_timeslice` or `modify_timeslice`. -/
theorem check_interrupts_requests_no_quantum_end :
    aggregateIpl [Dev.mk "timer" 2 (fun _ => IRQ_AUTOVECTOR)] = 2
    ∧ 2 > (0x2000 >>> 8) % 8
    ∧ Effect.endTimeslice
        ∉ check_interrupts true [Dev.mk "timer" 2 (fun _ => IRQ_AUTOVECTOR)] 0x2000 := by
  refine ⟨rfl, by decide, ?_⟩
  simp [check_interrupts, aggregateIpl]

/-- C4 (amended): whenever interrupt aggregation computes a combined IPL
greater than 0 and above the CPU's priority mask, the framework only emits
a debug trace (when framework debug tracing is on) and drives the IRQ
line; it never requests an early end of the running CPU quantum. -/
theorem check_interrupts_never_ends_quantum (debug : Bool) (devs : List Dev) (sr : Nat) :
    Effect.endTimeslice ∉ check_interrupts debug devs sr
    ∧ Effect.setIrq (aggregateIpl devs) ∈ check_interrupts debug devs sr := by
  constructor
  · simp only [check_interrupts, List.mem_append, List.mem_singleton]
    rintro (h | h)
    · split at h <;> simp_all
    · simp at h
  · simp [check_interrupts]

/-- Witness for `check_interrupts_never_ends_quantum` at a concrete
input. -/
theorem check_interrupts_never_ends_quantum_witness :
    Effect.setIrq 0 ∈ check_interrupts true [] 0 :=
  (check_interrupts_never_ends_quantum true [] 0).2

end Py68k

namespace Py68k

/-! ### Claim C10: UART data-register read frame -/

/-- C10: a read of the UART data register returns the receive-FIFO head
(0 when empty) and removes at most that head; the control register, vector
register, configured interrupt and — in particular — the asserted
interrupt level are left unchanged, even when the read drains the last
byte while receive interrupts are enabled (the `_update_ipl` call in the
source is dead code after `return`). -/
theorem read_dr_changes_only_rxfifo (s : UARTState) :
    (read_dr s).1 = s.rxfifo.headD 0
    ∧ (read_dr s).2.rxfifo = s.rxfifo.tail
    ∧ (read_dr s).2.ipl = s.ipl
    ∧ (read_dr s).2.cr = s.cr
    ∧ (read_dr s).2.vr = s.vr
    ∧ (read_dr s).2.interrupt = s.interrupt := by
  rcases s with ⟨fifo, cr, vr, ipl, intr⟩
  cases fifo <;> simp [read_dr]

/-! ### Claim C6: register-table alignment and uniqueness -/

theorem Register.init_ok_inv (table : List (RegKey × RegDesc)) (devName : String)
    (devAddress : Nat) (name : String) (offset size access : Nat)
    (t' : List (RegKey × RegDesc))
    (h : Register.init table devName devAddress name offset size access = .ok t') :
    (size = MEM_SIZE_16 → (devAddress + offset) % 2 = 0)
    ∧ (size = MEM_SIZE_32 → (devAddress + offset) % 4 = 0)
    ∧ Register.lookup table (devAddress + offset) size access = none
    ∧ t' = table ++ [((devAddress + offset, size, access),
          ⟨devName, name, devAddress + offset, size, access⟩)] := by
  simp only [Register.init] at h
  split_ifs at h with h1 h2 h3 h4 h5
  push_neg at h1 h2
  injection h with h
  refine ⟨h1, h2, ?_, h.symm⟩
  cases hk : Register.lookup table (devAddress + offset) size access with
  | none => rfl
  | some r => exact absurd (by rw [hk]; rfl) h5

/-- C6: a registration accepted by `Register.__init__` has a 2-aligned
address when 16 bits wide and a 4-aligned address when 32 bits wide, its
`(address, width, direction)` key is absent from the prior table, and the
new table is the old one plus the new descriptor; a registration violating
alignment or uniqueness is rejected with an error — and since the source
stores into the dict only after all checks, the table is unchanged. -/
theorem register_init_spec (table : List (RegKey × RegDesc)) (devName : String)
    (devAddress : Nat) (name : String) (offset size access : Nat) :
    (∀ t', Register.init table devName devAddress name offset size access = .ok t' →
        ((size = MEM_SIZE_16 → (devAddress + offset) % 2 = 0)
         ∧ (size = MEM_SIZE_32 → (devAddress + offset) % 4 = 0)
         ∧ Register.lookup table (devAddress + offset) size access = none
         ∧ t' = table ++ [((devAddress + offset, size, access),
              ⟨devName, name, devAddress + offset, size, access⟩)]))
    ∧ (((size = MEM_SIZE_16 ∧ (devAddress + offset) % 2 ≠ 0)
        ∨ (size = MEM_SIZE_32 ∧ (devAddress + offset) % 4 ≠ 0)
        ∨ (Register.lookup table (devAddress + offset) size access).isSome)
       → ∃ e, Register.init table devName devAddress name offset size access
                = .error e) := by
  constructor
  · exact fun t' h => Register.init_ok_inv table devName devAddress name offset size access t' h
  · intro hviol
    cases hinit : Register.init table devName devAddress name offset size access with
    | error e => exact ⟨e, rfl⟩
    | ok t' =>
        exfalso
        obtain ⟨ha16, ha32, hlk, -⟩ :=
          Register.init_ok_inv table devName devAddress name offset size access t' hinit
        rcases hviol with ⟨hs, hal⟩ | ⟨hs, hal⟩ | hk
        · exact hal (ha16 hs)
        · exact hal (ha32 hs)
        · rw [hlk] at hk
          exact absurd hk (by simp)

/-- Witness for `register_init_spec`: a 16-bit read register at
even address 2 is accepted, and its address is 2-aligned. -/
theorem register_init_spec_witness :
    (2 : Nat) % 2 = 0 :=
  (((register_init_spec [] "uart" 0 "SR" 2 MEM_SIZE_16 MEM_READ).1 _ rfl).1) rfl

/-! ### Claim C5: cycle-limit termination -/

/-- C5, evaluation at the failing input: with cycle limit 5, an iteration
that brings the elapsed count to 5 (the limit reached) and one that
brings it to 6 (the limit exceeded) both leave the dead flag clear and
the postmortem empty and end no timeslice — instead each iteration aborts
with `NameError` evaluating the unbound `mem_is_end` on line 307, before
the cycle-limit comparison on line 310, so the loop can never terminate
on the cycle limit at all, cleanly or otherwise. -/
theorem run_cycle_limit_unreachable :
    (runStep ⟨false, none, 0, some 5⟩ 5).state.dead = false
    ∧ (runStep ⟨false, none, 0, some 5⟩ 6).state.dead = false
    ∧ (runStep ⟨false, none, 0, some 5⟩ 6).state.postmortem = none
    ∧ (runStep ⟨false, none, 0, some 5⟩ 6).raised
        = some "NameError: name 'mem_is_end' is not defined"
    ∧ (runStep ⟨false, none, 0, some 5⟩ 6).effects = [] := by
  refine ⟨rfl, rfl, rfl, rfl, rfl⟩

/-! ### Claim C7: device-space decode miss -/

/-- C7 counterexample: with framework debug tracing off (the default), a
read of an address with no registered device register returns 0 to the CPU
but emits no trace entry at all — the decode-miss trace in
`RootDevice.cb_access` is routed through `Device.trace`, which is gated on
the root device's debug flag. -/
theorem cb_access_miss_silent_without_debug :
    cb_access false false [] [] 0 DEV_READ 0xff0000 0x123 8 0 = (0, []) := rfl

/-- C7 (amended): a CPU access to device space that does not resolve to a
registered device register returns the sentinel 0 to the CPU, runs no
interrupt check, and produces exactly one decode-miss trace entry when
framework debug tracing is enabled and none otherwise. -/
theorem cb_access_miss_returns_zero (debug traceIO : Bool)
    (regmap : List (Nat × BusDev)) (devs : List Dev)
    (sr op handle offset width value : Nat)
    (h : regLookup regmap (handle + offset) = none) :
    cb_access debug traceIO regmap devs sr op handle offset width value
      = (0, if debug then
              [Effect.trace
                s!"root: lookup failed to find device to handle access @{handle + offset}"]
            else []) := by
  simp only [cb_access, h]

/-- Witness for `cb_access_miss_returns_zero` with debug tracing on. -/
theorem cb_access_miss_returns_zero_witness :
    cb_access true false [] [] 0 DEV_READ 0 5 8 0
      = (0, [Effect.trace "root: lookup failed to find device to handle access @5"]) := by
  rw [cb_access_miss_returns_zero true false [] [] 0 DEV_READ 0 5 8 0 rfl]
  rfl

end Py68k

namespace Py68k

/-! ### Claim C9: SIGINT debounce -/

/-- C9 counterexample: the presses at 100.875, 101.0625 and 101.125
seconds all lie within a quarter of a second of each other — three presses
within one second — yet after the whole sequence (which began with a press
at 100) the handler has not terminated the emulation: the debounce window
is anchored at the first press of a window, and the press at 101.0625
arrives more than one second after the window anchor 100, restarting the
count at 1. -/
theorem sigint_three_within_second_not_fatal :
    ((101.125 : ℚ) - 100.875 ≤ 1)
    ∧ (pressAll ⟨0, 0, false, none, []⟩ [100, 100.875, 101.0625, 101.125]).dead = false
    ∧ (pressAll ⟨0, 0, false, none, []⟩ [100, 100.875, 101.0625, 101.125]).postmortem
        = none := by
  refine ⟨by norm_num, ?_, ?_⟩ <;>
    norm_num [pressAll, keyboard_interrupt]

/-- C9 (amended): the debounce window is anchored at the first press of a
window — a press arriving at least one second after the window anchor
starts a new window with count 1.  If a press `t1` starts a fresh window
and two further presses `t2`, `t3` arrive within one second of `t1`, the
first two presses do not terminate the emulation, the third does (through
the fatal path with the user-interrupt reason), and every press, the
terminating one included, is forwarded to the console as a break character
(byte 3). -/
theorem sigint_anchored_window (s : KIState) (t1 t2 t3 : ℚ)
    (hdead : s.dead = false)
    (hfresh : t1 - s.firstInterruptTime ≥ 1)
    (h2 : t2 - t1 < 1) (h3 : t3 - t1 < 1) :
    (pressAll s [t1]).dead = false
    ∧ (pressAll s [t1]).consoleInput = s.consoleInput ++ [3]
    ∧ (pressAll s [t1, t2]).dead = false
    ∧ (pressAll s [t1, t2]).consoleInput = s.consoleInput ++ [3, 3]
    ∧ (pressAll s [t1, t2, t3]).dead = true
    ∧ (pressAll s [t1, t2, t3]).postmortem = some "Exit due to user interrupt."
    ∧ (pressAll s [t1, t2, t3]).consoleInput = s.consoleInput ++ [3, 3, 3] := by
  have e1 : keyboard_interrupt s t1
      = {s with firstInterruptTime := t1, interruptCount := 1,
                consoleInput := s.consoleInput ++ [3]} := by
    simp [keyboard_interrupt, hfresh]
  have e2 : keyboard_interrupt (keyboard_interrupt s t1) t2
      = {s with firstInterruptTime := t1, interruptCount := 2,
                consoleInput := s.consoleInput ++ [3, 3]} := by
    rw [e1]
    simp [keyboard_interrupt, not_le.mpr h2]
  have e3 : keyboard_interrupt (keyboard_interrupt (keyboard_interrupt s t1) t2) t3
      = {s with firstInterruptTime := t1, interruptCount := 3, dead := true,
                postmortem := some "Exit due to user interrupt.",
                consoleInput := s.consoleInput ++ [3, 3, 3]} := by
    rw [e2]
    simp [keyboard_interrupt, not_le.mpr h3]
  simp only [pressAll, List.foldl_cons, List.foldl_nil]
  rw [e3, e2, e1]
  simp [hdead]

/-- Witness for `sigint_anchored_window`: presses at 5, 5.25 and 5.5
seconds from the initial state terminate with the user-interrupt
reason. -/
theorem sigint_anchored_window_witness :
    (pressAll ⟨0, 0, false, none, []⟩ [5, 5.25, 5.5]).postmortem
      = some "Exit due to user interrupt." :=
  (sigint_anchored_window ⟨0, 0, false, none, []⟩ 5 5.25 5.5 rfl
    (by norm_num) (by norm_num) (by norm_num)).2.2.2.2.2.1

end Py68k

namespace Py68k

/-! ### Claim C1: ELF R_68K_32 relocation -/

/-- Demonstration image for the relocation claim: one loadable section at
address 0 whose data holds the big-endian word 5, and one RELA section
targeting a loadable section with a single `R_68K_32` entry at offset 0
with addend 3. -/
def relocDemoImg : ELFImage where
  sections := [⟨0, true, [0, 0, 0, 5]⟩]
  relocSections := [⟨true, [⟨0, R_68K_32, 3⟩]⟩]
  e_entry := 0x400

/-- C1 failing input: `relocate` writes `load_base + r_addend` over the
word, ignoring the original section contents — with load base 0 the word
at the relocated address becomes 3 (the addend), not
`original + base = 5`.  Moreover with the realistic load base `0x10000`
the same image makes `relocate` abort: the source stores the unmasked
shifted value `rel_value >> 8 = 0x100` into a bytearray cell, which only
accepts values below 256. -/
theorem relocate_failing_input :
    relocate relocDemoImg 0 = some (0x400, [(0, [0, 0, 0, 3])])
    ∧ readWord32BE [(0, [0, 0, 0, 3])] 0 = some 3
    ∧ (3 : Nat) ≠ 5 + 0
    ∧ relocate relocDemoImg 0x10000 = none := by
  refine ⟨rfl, rfl, by decide, rfl⟩

/-! ### Claim C8: CompactFlash IDENTIFY data -/

set_option maxRecDepth 8192 in
/-- C8 failing input evaluation: for a 1 MiB backing file (2048 sectors)
the identify block is 512 bytes long, but the 16-bit data-register reads
numbered 60 and 61 return 8 and 0 — together 8, not the sector count
2048.  The `struct.pack` format begins with `'>'` (big-endian) although
the source's own comment says "little endian", while `_io_read` assembles
`(data[index + 1] << 8) + data[index]` (little-endian), so the program
observes the byte-swapped halves. -/
theorem cf_identify_failing_input :
    (identifyData 2048).length = 512
    ∧ (identifyData 2048).getD 120 0 = 8
    ∧ (identifyData 2048).getD 121 0 = 0
    ∧ (readWords (do_identify 2048) 62).getD 60 0 = 8
    ∧ (readWords (do_identify 2048) 62).getD 61 0 = 0
    ∧ (readWords (do_identify 2048) 62).getD 60 0
        + (readWords (do_identify 2048) 62).getD 61 0 * 0x10000 ≠ 2048 := by
  refine ⟨by decide, by decide, by decide, by decide, by decide, by decide⟩

end Py68k
